import Mathlib

/-!
Verification of the claudex UI component collection (settings tab, generic
dropdown, web preview, tool-permission modal).  Each component's local
interaction logic is shallowly embedded: pure render logic becomes Lean
functions, event handlers become state-transition functions returning the
new local state together with the list of callback invocations they emit.
JavaScript numbers used as port numbers are modelled as `Int`; JavaScript
string truthiness is the test against the empty string; `jsTrim` below
models JS `trim`.
-/

/-! ## WebPreview (src/frontend/src/components/editor/web-preview/Preview.tsx) -/

/-- Port info record: `{port number, previewUrl}`. -/
structure PortInfo where
  port : Int
  previewUrl : String
deriving DecidableEq

/-- The displayed selected port, from `Preview.tsx`:
`ports.length > 0 ? ports.find((p) => p.port === selectedPortId) || ports[0] : null`.
`find` returns the first element satisfying the predicate or `undefined`;
a found `PortInfo` object is always truthy, so `|| ports[0]` fires exactly
when `find` misses.  `p.port === selectedPortId` compares a number against
a number-or-null, which is `some p.port == selectedPortId` here. -/
def selectedPort (ports : List PortInfo) (selectedPortId : Option Int) : Option PortInfo :=
  if 0 < ports.length then
    match ports.find? (fun p => some p.port == selectedPortId) with
    | some p => some p
    | none => ports[0]?
  else
    none

/-- The `setSelectedPort` callback stores `port?.port || null`: `null`/`undefined`
input stores `null`, and a port number of `0` is falsy in JavaScript, so it is
coerced to `null` as well. -/
def setSelectedPort (port : Option PortInfo) : Option Int :=
  match port with
  | none => none
  | some p => if p.port = 0 then none else some p.port

/-- JS truthiness of the optional `sandboxId` string prop: `!sandboxId` is true
for `undefined` and for the empty string. -/
def sandboxTruthy : Option String → Bool
  | none => false
  | some s => s ≠ ""

/-- The three mutually exclusive views WebPreview can render: the
"no sandbox connected" message, the empty-state view (which renders the
Refresh button, disabled while loading), and the Panel view. -/
inductive PreviewView where
  | noSandbox
  | emptyPorts (refreshDisabled : Bool)
  | panelView (previewUrl : Option String)
deriving DecidableEq

/-- The top-level render branch of `WebPreview`:
`!sandboxId ? ... : ports.length === 0 ? ... : <Panel .../>`. -/
def renderWebPreview (sandboxId : Option String) (ports : List PortInfo)
    (loading : Bool) (selectedPortId : Option Int) : PreviewView :=
  if sandboxTruthy sandboxId = false then
    .noSandbox
  else if ports.length = 0 then
    .emptyPorts loading
  else
    .panelView ((selectedPort ports selectedPortId).map (fun p => p.previewUrl))

/-- Modelled from the spec: `Panel.tsx` is imported by `Preview.tsx` but its
source is not available here.  Per the spec ("A manual refresh action is
exposed only in the empty-state view"), the Panel view is modelled as exposing
no manual refresh control to the user, even though `WebPreview` passes it an
`onRefreshPorts` callback. -/
def panelExposesRefresh : Bool := false

/-- Whether a rendered WebPreview view exposes a manual refresh action to the
user.  The empty-state view renders the Refresh button; the no-sandbox message
renders none; the Panel case follows `panelExposesRefresh`. -/
def exposesRefresh : PreviewView → Bool
  | .noSandbox => false
  | .emptyPorts _ => true
  | .panelView _ => panelExposesRefresh

/-- Helper: when no port in the list matches the stored id, `selectedPort`
returns the first port of a non-empty list. -/
theorem selectedPort_eq_head_of_no_match (ports : List PortInfo) (sel : Option Int)
    (hne : ports ≠ []) (hall : ∀ p ∈ ports, some p.port ≠ sel) :
    selectedPort ports sel = ports[0]? := by
  have hlen : 0 < ports.length := List.length_pos.mpr hne
  have hfind : ports.find? (fun q => some q.port == sel) = none := by
    apply List.find?_eq_none.mpr
    intro x hx
    simp only [beq_iff_eq]
    exact hall x hx
  simp [selectedPort, hlen, hfind]

/-- C1: whenever the fetched port list is non-empty, the displayed selected
port is the (first) port whose port number equals the locally stored selected
port id; if no port in the list has that number — including when no selection
was ever made — the selected port is the first port of the list; when the list
is empty the selected port is null. -/
theorem C1_selectedPort_fallback (ports : List PortInfo) (sel : Option Int) :
    (ports = [] → selectedPort ports sel = none) ∧
    (ports ≠ [] →
      ((∃ p ∈ ports, some p.port = sel) →
        ∃ p, selectedPort ports sel = some p ∧ p ∈ ports ∧ some p.port = sel) ∧
      ((∀ p ∈ ports, some p.port ≠ sel) → selectedPort ports sel = ports[0]?)) := by
  constructor
  · intro h
    subst h
    rfl
  · intro hne
    have hlen : 0 < ports.length := List.length_pos.mpr hne
    constructor
    · rintro ⟨p, hp, hport⟩
      cases hfind : ports.find? (fun q => some q.port == sel) with
      | none =>
        exfalso
        have := List.find?_eq_none.mp hfind p hp
        simp only [beq_iff_eq] at this
        exact this hport
      | some q =>
        refine ⟨q, ?_, List.mem_of_find?_eq_some hfind, ?_⟩
        · simp [selectedPort, hlen, hfind]
        · have := List.find?_some hfind
          simpa [beq_iff_eq] using this
    · intro hall
      exact selectedPort_eq_head_of_no_match ports sel hne hall

/-- Witness for C1 at a concrete port list where the stored id matches the
second port. -/
theorem C1_selectedPort_fallback_witness :
    ∃ p, selectedPort [⟨3, "a"⟩, ⟨5, "b"⟩] (some 5) = some p ∧
      p ∈ [PortInfo.mk 3 "a", PortInfo.mk 5 "b"] ∧ some p.port = some 5 :=
  ((C1_selectedPort_fallback [⟨3, "a"⟩, ⟨5, "b"⟩] (some 5)).2 (by decide)).1
    ⟨⟨5, "b"⟩, by decide, rfl⟩

/-- C9: selecting a port whose number is 0 stores `null` (the `|| null` falsy
coercion), so that selection is never recorded and, on any non-empty port
list, the displayed selection falls back to the first port. -/
theorem C9_port_zero_never_recorded (u : String) (ports : List PortInfo)
    (hne : ports ≠ []) :
    setSelectedPort (some ⟨0, u⟩) = none ∧
    selectedPort ports (setSelectedPort (some ⟨0, u⟩)) = ports[0]? := by
  have hstore : setSelectedPort (some ⟨0, u⟩) = none := by
    simp [setSelectedPort]
  refine ⟨hstore, ?_⟩
  rw [hstore]
  exact selectedPort_eq_head_of_no_match ports none hne (by intro p _ h; simp at h)

/-- Witness for C9 on a concrete two-port list. -/
theorem C9_port_zero_never_recorded_witness :
    setSelectedPort (some ⟨0, "z"⟩) = none ∧
    selectedPort [⟨4, "a"⟩, ⟨7, "b"⟩] (setSelectedPort (some ⟨0, "z"⟩)) =
      [PortInfo.mk 4 "a", PortInfo.mk 7 "b"][0]? :=
  C9_port_zero_never_recorded "z" [⟨4, "a"⟩, ⟨7, "b"⟩] (by decide)

/-! ## Dropdown (src/unnamed/part_001) -/

/-- Runtime shape of a JavaScript value as far as `isGroupedItems` inspects
it: `null` (for which `typeof` is still the string for objects), a non-null
object carrying a set of own property names, or a non-object primitive. -/
inductive JsValue where
  | nullV
  | obj (fields : List String)
  | prim
deriving DecidableEq

/-- JS `typeof v` tests as the string for objects: true for `null` and for
every object, false for other primitives. -/
def typeofIsObject : JsValue → Bool
  | .nullV => true
  | .obj _ => true
  | .prim => false

/-- JS `'type' in v` membership test (only meaningful on objects). -/
def hasTypeField : JsValue → Bool
  | .obj fields => fields.contains "type"
  | _ => false

/-- `isGroupedItems` from the Dropdown:
`items.length > 0 && typeof items[0] === 'object' && items[0] !== null && 'type' in items[0]`. -/
def isGroupedItems (items : List JsValue) : Bool :=
  decide (0 < items.length) &&
    match items[0]? with
    | some v => typeofIsObject v && !(v = JsValue.nullV) && hasTypeField v
    | none => false

/-- Tagged item variants of the grouped item collection,
`{type:'item', data} | {type:'header', label}`. -/
inductive DropdownItemType (T : Type) where
  | item (data : T)
  | header (label : String)
deriving DecidableEq

/-- Effect of an item row's `onSelect` handler: the list of arguments passed
to the caller's `onSelect` callback, and the open-state value written by
`setIsOpen`. -/
structure SelectEffect (T : Type) where
  onSelectCalls : List T
  isOpen : Bool
deriving DecidableEq

/-- One rendered element of the open dropdown list: either a group header
(with its label and whether its top border is rendered) or a selectable row
(its React key, its `isSelected` mark, the effect of triggering its
`onSelect`, and the item it carries). -/
inductive Rendered (T : Type) where
  | headerEl (label : String) (topBorderShown : Bool)
  | selectEl (key : String) (isSelected : Bool) (effect : SelectEffect T) (payload : T)
deriving DecidableEq

/-- Flat-mode body of the open dropdown: `items.map((item) => <SelectItem ...>)`
with `isSelected = getItemKey(item) === getItemKey(value)` and the handler
`() => { onSelect(item); setIsOpen(false); }`. -/
def renderFlat {T : Type} (getItemKey : T → String) (value : T)
    (items : List T) : List (Rendered T) :=
  items.map fun item =>
    .selectEl (getItemKey item) (getItemKey item == getItemKey value)
      ⟨[item], false⟩ item

/-- Grouped-mode body, carrying the running `index` of `items.map((item, index) => ...)`:
a header at index 0 gets `border-t-0` (top border suppressed), later headers
keep `border-t`; item rows are as in flat mode but select `item.data`. -/
def renderGroupedAux {T : Type} (getItemKey : T → String) (value : T) :
    Nat → List (DropdownItemType T) → List (Rendered T)
  | _, [] => []
  | index, it :: rest =>
    (match it with
      | .header label => .headerEl label (index != 0)
      | .item data =>
        .selectEl (getItemKey data) (getItemKey data == getItemKey value)
          ⟨[data], false⟩ data)
      :: renderGroupedAux getItemKey value (index + 1) rest

/-- Grouped-mode body of the open dropdown, starting at index 0. -/
def renderGrouped {T : Type} (getItemKey : T → String) (value : T)
    (items : List (DropdownItemType T)) : List (Rendered T) :=
  renderGroupedAux getItemKey value 0 items

/-- Whether a rendered element is an item row marked selected. -/
def isSelectedRow {T : Type} : Rendered T → Bool
  | .selectEl _ isSelected _ _ => isSelected
  | .headerEl _ _ => false

/-- Number of rendered elements marked selected. -/
def selectedCount {T : Type} (rs : List (Rendered T)) : Nat :=
  rs.countP isSelectedRow

/-- C2: a Dropdown item collection is classified grouped iff it is non-empty
and its first element is a non-null object possessing the discriminator field
`type`; in every other case it is classified flat, regardless of the shape of
later elements. -/
theorem C2_isGroupedItems_first_element (items : List JsValue) :
    isGroupedItems items = true ↔
      (items ≠ [] ∧ ∃ fields, items[0]? = some (.obj fields) ∧ "type" ∈ fields) := by
  constructor
  · intro h
    simp only [isGroupedItems, Bool.and_eq_true, decide_eq_true_eq] at h
    obtain ⟨hlen, hrest⟩ := h
    refine ⟨List.ne_nil_of_length_pos hlen, ?_⟩
    cases hfst : items[0]? with
    | none => rw [hfst] at hrest; cases hrest
    | some v =>
      rw [hfst] at hrest
      cases v with
      | nullV => simp [typeofIsObject, hasTypeField] at hrest
      | prim => simp [typeofIsObject, hasTypeField] at hrest
      | obj fields =>
        refine ⟨fields, rfl, ?_⟩
        simp only [typeofIsObject, hasTypeField, Bool.true_and, Bool.and_eq_true] at hrest
        simpa [List.contains] using hrest.2
  · rintro ⟨hne, fields, hfst, hmem⟩
    simp only [isGroupedItems, Bool.and_eq_true, decide_eq_true_eq]
    refine ⟨List.length_pos.mpr hne, ?_⟩
    rw [hfst]
    simp [typeofIsObject, hasTypeField, List.contains, hmem]

/-- Helper: `selectedCount` over a cons. -/
theorem selectedCount_cons {T : Type} (r : Rendered T) (rs : List (Rendered T)) :
    selectedCount (r :: rs) = selectedCount rs + (if isSelectedRow r then 1 else 0) :=
  List.countP_cons isSelectedRow r rs

/-- Helper: every selectable row produced by the flat-mode body has its React
key derived from its payload, its `isSelected` mark equal to the key
comparison against the current value, and the handler effect
`onSelect(item); setIsOpen(false)`. -/
theorem renderFlat_selectEl_shape {T : Type} (k : T → String) (v : T)
    (items : List T) (key : String) (isSel : Bool) (eff : SelectEffect T)
    (payload : T)
    (h : Rendered.selectEl key isSel eff payload ∈ renderFlat k v items) :
    key = k payload ∧ isSel = (k payload == k v) ∧ eff = ⟨[payload], false⟩ := by
  simp only [renderFlat, List.mem_map] at h
  obtain ⟨item, _, heq⟩ := h
  injection heq with h1 h2 h3 h4
  subst h4
  exact ⟨h1.symm, h2.symm, h3.symm⟩

/-- Helper: the same shape property for every selectable row produced by the
grouped-mode body, at any starting index. -/
theorem renderGroupedAux_selectEl_shape {T : Type} (k : T → String) (v : T) :
    ∀ (items : List (DropdownItemType T)) (n : Nat) (key : String) (isSel : Bool)
      (eff : SelectEffect T) (payload : T),
      Rendered.selectEl key isSel eff payload ∈ renderGroupedAux k v n items →
      key = k payload ∧ isSel = (k payload == k v) ∧ eff = ⟨[payload], false⟩ := by
  intro items
  induction items with
  | nil =>
    intro n key isSel eff payload h
    simp [renderGroupedAux] at h
  | cons it rest ih =>
    intro n key isSel eff payload h
    cases it with
    | header label =>
      simp only [renderGroupedAux, List.mem_cons] at h
      cases h with
      | inl heq => exact Rendered.noConfusion heq
      | inr hmem => exact ih (n + 1) key isSel eff payload hmem
    | item d =>
      simp only [renderGroupedAux, List.mem_cons] at h
      cases h with
      | inl heq =>
        injection heq with h1 h2 h3 h4
        subst h4
        exact ⟨h1, h2, h3⟩
      | inr hmem => exact ih (n + 1) key isSel eff payload hmem

/-- Helper: the header at array index `i` of a grouped item collection renders
with its top border shown exactly when its absolute index `n + i` is nonzero. -/
theorem renderGroupedAux_header_getElem {T : Type} (k : T → String) (v : T) :
    ∀ (items : List (DropdownItemType T)) (n i : Nat) (label : String),
      items[i]? = some (.header label) →
      (renderGroupedAux k v n items)[i]? =
        some (.headerEl label ((n + i) != 0)) := by
  intro items
  induction items with
  | nil =>
    intro n i label h
    simp at h
  | cons it rest ih =>
    intro n i label h
    cases i with
    | zero =>
      simp only [List.getElem?_cons_zero, Option.some_inj] at h
      subst h
      simp [renderGroupedAux]
    | succ j =>
      simp only [List.getElem?_cons_succ] at h
      have hres := ih (n + 1) j label h
      have harg : n + 1 + j = n + (j + 1) := by omega
      rw [harg] at hres
      simpa [renderGroupedAux] using hres

/-- Helper: the number of selected rows produced by the grouped-mode body does
not depend on the starting index and counts the items whose derived key
matches the current value's. -/
theorem renderGroupedAux_selectedCount {T : Type} (k : T → String) (v : T) :
    ∀ (items : List (DropdownItemType T)) (n : Nat),
      selectedCount (renderGroupedAux k v n items) =
        items.countP (fun gi =>
          match gi with
          | .item d => k d == k v
          | .header _ => false) := by
  intro items
  induction items with
  | nil => intro n; rfl
  | cons it rest ih =>
    intro n
    cases it with
    | header label =>
      simp [renderGroupedAux, selectedCount_cons, isSelectedRow, List.countP_cons,
        ih (n + 1)]
    | item d =>
      simp [renderGroupedAux, selectedCount_cons, isSelectedRow, List.countP_cons,
        ih (n + 1)]

/-- C4: in both flat and grouped mode, triggering any rendered row's selection
invokes the caller's `onSelect` exactly once with that row's item and writes
`false` to the open state. -/
theorem C4_select_invokes_once_and_closes {T : Type} (getItemKey : T → String)
    (value : T) (flatItems : List T) (groupedItems : List (DropdownItemType T))
    (key : String) (isSel : Bool) (eff : SelectEffect T) (payload : T) :
    (Rendered.selectEl key isSel eff payload ∈ renderFlat getItemKey value flatItems →
      eff.onSelectCalls = [payload] ∧ eff.isOpen = false) ∧
    (Rendered.selectEl key isSel eff payload ∈ renderGrouped getItemKey value groupedItems →
      eff.onSelectCalls = [payload] ∧ eff.isOpen = false) := by
  constructor
  · intro h
    have hs := renderFlat_selectEl_shape getItemKey value flatItems key isSel eff payload h
    rw [hs.2.2]
    exact ⟨rfl, rfl⟩
  · intro h
    simp only [renderGrouped] at h
    have hs := renderGroupedAux_selectEl_shape getItemKey value groupedItems 0
      key isSel eff payload h
    rw [hs.2.2]
    exact ⟨rfl, rfl⟩

/-- Witness for C4: the single row of a one-item flat dropdown. -/
theorem C4_select_invokes_once_and_closes_witness :
    (SelectEffect.mk ["a"] false).onSelectCalls = ["a"] ∧
    (SelectEffect.mk ["a"] false).isOpen = false :=
  (C4_select_invokes_once_and_closes (fun s : String => s) "v" ["a"]
      ([] : List (DropdownItemType String)) "a" false ⟨["a"], false⟩ "a").1
    (by decide)

/-- C5 counterexample: with items `["a", "b"]`, identity keys and current
value `"c"`, no rendered element is marked selected, refuting "exactly one
rendered element is marked selected" for every collection and value. -/
theorem C5_exactly_one_selected_counterexample :
    selectedCount (renderFlat (fun s : String => s) "c" ["a", "b"]) = 0 := by
  decide

/-- C5 (amended): in both modes a rendered row is marked selected iff its
item's derived key equals the current value's derived key; consequently the
number of selected rows equals the number of items whose derived key matches
(so "exactly one" holds precisely when exactly one item's key matches, not
for every collection and value). -/
theorem C5_selected_iff_key_match {T : Type} (getItemKey : T → String) (value : T)
    (flatItems : List T) (groupedItems : List (DropdownItemType T)) :
    (∀ key isSel eff payload,
      Rendered.selectEl key isSel eff payload ∈ renderFlat getItemKey value flatItems →
        (isSel = true ↔ getItemKey payload = getItemKey value)) ∧
    (∀ key isSel eff payload,
      Rendered.selectEl key isSel eff payload ∈ renderGrouped getItemKey value groupedItems →
        (isSel = true ↔ getItemKey payload = getItemKey value)) ∧
    selectedCount (renderFlat getItemKey value flatItems) =
      flatItems.countP (fun it => getItemKey it == getItemKey value) ∧
    selectedCount (renderGrouped getItemKey value groupedItems) =
      groupedItems.countP (fun gi =>
        match gi with
        | .item d => getItemKey d == getItemKey value
        | .header _ => false) := by
  refine ⟨?_, ?_, ?_, ?_⟩
  · intro key isSel eff payload h
    have hs := renderFlat_selectEl_shape getItemKey value flatItems key isSel eff payload h
    rw [hs.2.1]
    simp
  · intro key isSel eff payload h
    simp only [renderGrouped] at h
    have hs := renderGroupedAux_selectEl_shape getItemKey value groupedItems 0
      key isSel eff payload h
    rw [hs.2.1]
    simp
  · simp only [selectedCount, renderFlat, List.countP_map]
    rfl
  · simp only [renderGrouped]
    exact renderGroupedAux_selectedCount getItemKey value groupedItems 0

/-- Witness for C5 (amended) at a flat two-item list whose second item matches
the current value. -/
theorem C5_selected_iff_key_match_witness :
    (true = true ↔ ("b" : String) = "b") :=
  (C5_selected_iff_key_match (fun s : String => s) "b" ["a", "b"]
      ([] : List (DropdownItemType String))).1
    "b" true ⟨["b"], false⟩ "b" (by decide)

/-- C6: in grouped mode, the header at array index `i` renders with its top
border shown exactly when `i ≠ 0`: the separator of the group opening the
collection is suppressed, every later group's separator is rendered. -/
theorem C6_header_top_border {T : Type} (getItemKey : T → String) (value : T)
    (items : List (DropdownItemType T)) (i : Nat) (label : String)
    (h : items[i]? = some (.header label)) :
    (renderGrouped getItemKey value items)[i]? =
      some (.headerEl label (i != 0)) := by
  have hres := renderGroupedAux_header_getElem getItemKey value items 0 i label h
  simpa [renderGrouped] using hres

/-- Witness for C6: a later group's header (index 2) shows its top border. -/
theorem C6_header_top_border_witness :
    (renderGrouped (fun s : String => s) "x"
        [.header "Recent", .item "x", .header "Older", .item "y"])[2]? =
      some (Rendered.headerEl "Older" ((2 : Nat) != 0)) :=
  C6_header_top_border (fun s : String => s) "x"
    [.header "Recent", .item "x", .header "Older", .item "y"] 2 "Older" (by decide)

/-! ## ToolPermissionModal (src/unnamed/part_002) -/

/-- Permission request record: tool name plus its input, a mapping of
argument names to (rendered) values. -/
structure PermissionRequest where
  tool_name : String
  tool_input : List (String × String)
deriving DecidableEq

/-- Local state of the modal: the reveal flag of the reject text field
(`showRejectInput`) and the field's text (`alternativeInstruction`). -/
structure ModalState where
  showRejectInput : Bool
  alternativeInstruction : String
deriving DecidableEq

/-- JS `String.prototype.trim`: strip leading and trailing whitespace,
modelled structurally over the string's character list (so that it reduces in
the kernel, unlike `String.trim`). -/
def jsTrim (s : String) : String :=
  ⟨((s.data.dropWhile Char.isWhitespace).reverse.dropWhile Char.isWhitespace).reverse⟩

/-- `handleReject`: if the reject input is shown and the trimmed text is
truthy (non-empty), call `onReject(alternativeInstruction.trim())`, clear the
text and hide the input; otherwise only reveal the input.  The second
component lists the arguments of the `onReject` invocations the press emits. -/
def handleReject (s : ModalState) : ModalState × List (Option String) :=
  if s.showRejectInput && jsTrim s.alternativeInstruction != "" then
    (⟨false, ""⟩, [some (jsTrim s.alternativeInstruction)])
  else
    (⟨true, s.alternativeInstruction⟩, [])

/-- `handleJustReject`: call `onReject()` with no argument and reset both
pieces of local state. -/
def handleJustReject (_s : ModalState) : ModalState × List (Option String) :=
  (⟨false, ""⟩, [none])

/-- Events the modal reacts to: a change of the `request` prop (the component
body has no effect hook and never writes state on a prop change), the two
reject buttons, and typing in the textarea. -/
inductive ModalEvent where
  | requestChange (request : Option PermissionRequest)
  | pressReject
  | pressJustReject
  | setText (t : String)

/-- One step of the modal's local-state machine, returning the new state and
the arguments of the `onReject` calls emitted by the step. -/
def modalStep (s : ModalState) : ModalEvent → ModalState × List (Option String)
  | .requestChange _ => (s, [])
  | .pressReject => handleReject s
  | .pressJustReject => handleJustReject s
  | .setText t => ({ s with alternativeInstruction := t }, [])

/-- Calls the modal's footer buttons can emit to the parent. -/
inductive ModalCall where
  | approve
  | reject (arg : Option String)
deriving DecidableEq

/-- A rendered button: its `disabled` prop and the parent-callback invocations
its click handler would emit. -/
structure ButtonModel where
  disabled : Bool
  onClick : List ModalCall
deriving DecidableEq

/-- Modelled from the spec: the shared `Button` primitive is owned outside
this component set and its source is not available here; per the spec
("Disabled state (`isLoading`) suppresses all actions"), clicking a disabled
button emits nothing. -/
def clickButton (b : ButtonModel) : List ModalCall :=
  if b.disabled then [] else b.onClick

/-- The modal's footer row: with the reject input shown it renders
"Just Reject" (disabled while loading) and "Send Instructions" (disabled
while loading or while the trimmed text is empty); otherwise it renders
"Reject" and "Approve", both disabled while loading, with Approve's click
invoking `onApprove`. -/
def renderFooter (s : ModalState) (isLoading : Bool) : List ButtonModel :=
  if s.showRejectInput then
    [⟨isLoading, (handleJustReject s).2.map ModalCall.reject⟩,
     ⟨isLoading || jsTrim s.alternativeInstruction == "",
       (handleReject s).2.map ModalCall.reject⟩]
  else
    [⟨isLoading, (handleReject s).2.map ModalCall.reject⟩,
     ⟨isLoading, [.approve]⟩]

/-- C3 counterexample: with the reject field shown and the non-empty,
whitespace-only text `" "`, pressing Reject emits no `onReject` call at all —
refuting "pressing Reject again while the field is shown with non-empty text
calls onReject exactly once with that text". -/
theorem C3_reject_counterexample :
    (ModalState.mk true " ").alternativeInstruction ≠ "" ∧
    (handleReject ⟨true, " "⟩).2 = [] := by
  exact ⟨by decide, by decide⟩

/-- C3 (amended): pressing Reject while the field is not shown emits no
`onReject` call and only reveals the field; pressing Reject while the field is
shown with text whose trimmed form is non-empty emits exactly one `onReject`
call carrying the trimmed text and resets both the text and the reveal flag
(with whitespace-only text the press emits nothing). -/
theorem C3_reject_two_step (s : ModalState) :
    (s.showRejectInput = false →
      handleReject s = (⟨true, s.alternativeInstruction⟩, [])) ∧
    (s.showRejectInput = true → jsTrim s.alternativeInstruction ≠ "" →
      handleReject s = (⟨false, ""⟩, [some (jsTrim s.alternativeInstruction)])) := by
  constructor
  · intro h
    simp [handleReject, h]
  · intro h ht
    simp [handleReject, h, ht]

/-- Witness for C3 (amended): a second press with text `" use X "` emits one
call with `"use X"`. -/
theorem C3_reject_two_step_witness :
    handleReject ⟨true, " use X "⟩ = (⟨false, ""⟩, [some (jsTrim " use X ")]) :=
  (C3_reject_two_step ⟨true, " use X "⟩).2 rfl (by decide)

/-- C8: while `isLoading` is true every footer button — the Approve button in
particular — is disabled, and clicking any of them emits no call, so
`onApprove` is never invoked in that state. -/
theorem C8_approve_disabled_while_loading (s : ModalState) (b : ButtonModel)
    (hb : b ∈ renderFooter s true) :
    b.disabled = true ∧ clickButton b = [] := by
  cases hs : s.showRejectInput with
  | true =>
    simp only [renderFooter, hs, if_true, List.mem_cons, List.mem_singleton,
      Bool.true_or] at hb
    rcases hb with rfl | rfl | h
    · exact ⟨rfl, rfl⟩
    · exact ⟨rfl, rfl⟩
    · cases h
  | false =>
    simp only [renderFooter, hs, if_false, List.mem_cons, List.mem_singleton,
      Bool.false_eq_true] at hb
    rcases hb with rfl | rfl | h
    · exact ⟨rfl, rfl⟩
    · exact ⟨rfl, rfl⟩
    · cases h

/-- Witness for C8: the Approve button of the normal footer, rendered while
loading. -/
theorem C8_approve_disabled_while_loading_witness :
    (ButtonModel.mk true [ModalCall.approve]).disabled = true ∧
    clickButton ⟨true, [ModalCall.approve]⟩ = [] :=
  C8_approve_disabled_while_loading ⟨false, ""⟩ ⟨true, [.approve]⟩ (by decide)

/-- C10: a change of the `request` prop never touches the modal's local
state: with the reveal flag set or text entered, after the request becomes
absent and a new request arrives (with no resolving action in between), the
reveal flag and the text are unchanged. -/
theorem C10_state_survives_request_absence (s : ModalState) (r : PermissionRequest)
    (_h : s.showRejectInput = true ∨ s.alternativeInstruction ≠ "") :
    (modalStep (modalStep s (.requestChange none)).1 (.requestChange (some r))).1 = s ∧
    (modalStep s (.requestChange none)).2 = [] ∧
    (modalStep (modalStep s (.requestChange none)).1 (.requestChange (some r))).2 = [] :=
  ⟨rfl, rfl, rfl⟩

/-- Witness for C10 with the reject input revealed and a draft text. -/
theorem C10_state_survives_request_absence_witness :
    (modalStep (modalStep ⟨true, "draft"⟩ (.requestChange none)).1
        (.requestChange (some ⟨"Bash", []⟩))).1 = (⟨true, "draft"⟩ : ModalState) ∧
    (modalStep (⟨true, "draft"⟩ : ModalState) (.requestChange none)).2 = [] ∧
    (modalStep (modalStep ⟨true, "draft"⟩ (.requestChange none)).1
        (.requestChange (some ⟨"Bash", []⟩))).2 = [] :=
  C10_state_survives_request_absence ⟨true, "draft"⟩ ⟨"Bash", []⟩ (Or.inl rfl)

/-- C7: a WebPreview render exposes a manual refresh action exactly when a
sandbox is connected (truthy `sandboxId`) and the fetched port list is empty —
the empty-state view; with the Panel modelled per the spec as exposing no
refresh control, no other state exposes one. -/
theorem C7_refresh_only_in_empty_state (sandboxId : Option String)
    (ports : List PortInfo) (loading : Bool) (selectedPortId : Option Int) :
    exposesRefresh (renderWebPreview sandboxId ports loading selectedPortId) = true ↔
      (sandboxTruthy sandboxId = true ∧ ports = []) := by
  cases hs : sandboxTruthy sandboxId with
  | false =>
    simp [renderWebPreview, hs, exposesRefresh]
  | true =>
    cases hp : ports with
    | nil =>
      simp [renderWebPreview, hs, exposesRefresh]
    | cons p rest =>
      simp [renderWebPreview, hs, exposesRefresh, panelExposesRefresh]
